import Mathlib

/-!
Verification development for the `gauss` TypeScript SDK
(packages/gauss/src: provider.ts, agent.ts, backend.ts, types.ts).

The host layer is embedded shallowly: each host function becomes a pure
Lean function; the calls it issues across the native-module boundary are
reified as values of explicit call inductives, so that theorems can speak
about which boundary calls are made and with which marshalled arguments.
JavaScript numbers carried opaquely (temperature, topP) are modelled as
`Int`; no arithmetic is performed on them by the code under study.
-/

namespace Gauss

/-- JSON values, modelling the JavaScript values that cross the boundary.
Numbers are modelled as `Int` since the adapter never computes with them. -/
inductive Json where
  | null
  | bool (b : Bool)
  | num (n : Int)
  | str (s : String)
  | arr (elems : List Json)
  | obj (fields : List (String × Json))
deriving Repr

mutual

/-- Model of `JSON.stringify` on the `Json` values above (escaping of
special characters inside strings is not modelled; no claim depends on it). -/
def Json.stringify : Json → String
  | .null => "null"
  | .bool true => "true"
  | .bool false => "false"
  | .num n => toString n
  | .str s => "\"" ++ s ++ "\""
  | .arr elems => "[" ++ Json.stringifyElems elems ++ "]"
  | .obj fields => "\x7b" ++ Json.stringifyFields fields ++ "\x7d"

/-- Comma-separated serialization of the elements of a JSON array. -/
def Json.stringifyElems : List Json → String
  | [] => ""
  | [j] => Json.stringify j
  | j :: rest => Json.stringify j ++ "," ++ Json.stringifyElems rest

/-- Comma-separated serialization of the properties of a JSON object. -/
def Json.stringifyFields : List (String × Json) → String
  | [] => ""
  | [(k, v)] => "\"" ++ k ++ "\":" ++ Json.stringify v
  | (k, v) :: rest => "\"" ++ k ++ "\":" ++ Json.stringify v ++ "," ++ Json.stringifyFields rest

end

/-- Message roles (types.ts `Message.role`). -/
inductive Role where
  | system
  | user
  | assistant
deriving Repr, DecidableEq

/-- Role as the string that appears on the wire. -/
def Role.text : Role → String
  | .system => "system"
  | .user => "user"
  | .assistant => "assistant"

/-- Chat message (types.ts `Message`). -/
structure Message where
  role : Role
  content : String
deriving Repr, DecidableEq

/-- Provider configuration (types.ts `ProviderOptions`); optional fields
are `Option`, `none` meaning the property is absent on the host side. -/
structure ProviderOptions where
  apiKey : String
  baseUrl : Option String
  timeoutMs : Option Nat
  maxRetries : Option Nat
  organization : Option String
deriving Repr

/-- Tool schema as passed to backends: a `ToolDef` minus its `execute`
member (backend.ts uses `Omit ToolDef execute`). -/
structure ToolSchema where
  name : String
  description : String
  parameters : Option Json
deriving Repr

/-- Tool definition (types.ts `ToolDef`). `execute` is the optional host
implementation; its asynchronous resolution is modelled as a pure function. -/
structure ToolDef where
  name : String
  description : String
  parameters : Option Json
  execute : Option (Json → Json)

/-- Project a `ToolDef` to the schema triple sent to backends
(agent.ts builds exactly this record for each tool). -/
def ToolDef.toSchema (t : ToolDef) : ToolSchema :=
  { name := t.name, description := t.description, parameters := t.parameters }

/-- Agent configuration (types.ts `AgentOptions`). -/
structure AgentOptions where
  instructions : Option String
  maxSteps : Option Nat
  temperature : Option Int
  topP : Option Int
  maxTokens : Option Nat
  seed : Option Nat
  stopOnTool : Option String
  outputSchema : Option Json
  tools : Option (List ToolDef)

/-- Token usage pair (types.ts `AgentResult.usage`). -/
structure Usage where
  inputTokens : Nat
  outputTokens : Nat
deriving Repr, DecidableEq

/-- Agent execution result (types.ts `AgentResult`). -/
structure AgentResult where
  text : String
  steps : Nat
  usage : Usage
  structuredOutput : Option Json
deriving Repr

/-! ## Provider facade (provider.ts)

Boundary calls made by the provider facade through the `Backend`
interface are reified as `BackendCall` values; `destroy` returns the
updated facade state together with the list of boundary calls it issued. -/

/-- Calls the provider facade can issue through the `Backend` interface. -/
inductive BackendCall where
  | destroyProvider (handle : Nat)
  | generate (handle : Nat) (messages : List Message)
      (temperature : Option Int) (maxTokens : Option Nat)
deriving Repr

/-- Provider facade state (provider.ts `Provider`): a native handle plus
the `destroyed` flag. -/
structure Provider where
  handle : Nat
  destroyed : Bool
deriving Repr, DecidableEq

/-- provider.ts `Provider.getHandle`: throws `Provider has been destroyed`
once the facade is destroyed, otherwise returns the handle. -/
def Provider.getHandle (p : Provider) : Except String Nat :=
  if p.destroyed then .error "Provider has been destroyed" else .ok p.handle

/-- provider.ts `Provider.generate`: on a destroyed facade throws before
any boundary call; otherwise issues the `generate` boundary call. -/
def Provider.generate (p : Provider) (messages : List Message)
    (temperature : Option Int) (maxTokens : Option Nat) :
    Except String BackendCall :=
  if p.destroyed then .error "Provider has been destroyed"
  else .ok (BackendCall.generate p.handle messages temperature maxTokens)

/-- provider.ts `Provider.destroy`: only when not yet destroyed does it
call `backend.destroyProvider(handle)` and set the flag; afterwards it is
a no-op returning normally. -/
def Provider.destroy (p : Provider) : Provider × List BackendCall :=
  if p.destroyed then (p, [])
  else ({ p with destroyed := true }, [BackendCall.destroyProvider p.handle])

/-- Iterate `destroy` the given number of times, collecting every boundary
call issued across the whole sequence. -/
def Provider.destroyN : Nat → Provider → Provider × List BackendCall
  | 0, p => (p, [])
  | n + 1, p =>
    let first := p.destroy
    let rest := Provider.destroyN n first.1
    (rest.1, first.2 ++ rest.2)

/-! ## Tool executor and agent facade (agent.ts) -/

/-- Association-list update with JavaScript `Map.set` semantics: replace
an existing binding in place, otherwise append. -/
def assocSet {α : Type} : List (String × α) → String → α → List (String × α)
  | [], k, v => [(k, v)]
  | (k2, v2) :: rest, k, v =>
    if k2 = k then (k, v) :: rest else (k2, v2) :: assocSet rest k v

/-- Association-list lookup with JavaScript `Map.get` semantics. -/
def assocGet {α : Type} : List (String × α) → String → Option α
  | [], _ => none
  | (k2, v) :: rest, k => if k2 = k then some v else assocGet rest k

/-- One iteration of the `for` loop in agent.ts that fills `executorMap`:
`if (t.execute) executorMap.set(t.name, t.execute)`. -/
def executorMapStep (m : List (String × (Json → Json))) (t : ToolDef) :
    List (String × (Json → Json)) :=
  match t.execute with
  | some fn => assocSet m t.name fn
  | none => m

/-- agent.ts: the `executorMap` built inside `Agent.run`, holding the
`execute` member of every tool that has one, keyed by tool name. -/
def buildExecutorMap (tools : List ToolDef) : List (String × (Json → Json)) :=
  tools.foldl executorMapStep []

/-- Tool-call envelope in parsed form: agent.ts receives `callJson` and
destructures `JSON.parse(callJson)` into a `tool` name and `args`; the
executor is modelled on the parsed value. -/
structure ToolCallEnvelope where
  tool : String
  args : Json

/-- agent.ts `toolExecutor`: looks the named tool up in `executorMap`; on
a miss it throws `No execute function for tool: name`; on a hit it runs the
host implementation once on the parsed arguments and returns the JSON
serialization of its result. The second component records every host
implementation invocation as a `(tool, args)` pair. -/
def toolExecutor (executorMap : List (String × (Json → Json)))
    (call : ToolCallEnvelope) :
    Except String String × List (String × Json) :=
  match assocGet executorMap call.tool with
  | none => (.error ("No execute function for tool: " ++ call.tool), [])
  | some fn => (.ok (Json.stringify (fn call.args)), [(call.tool, call.args)])

/-- The call `Agent.run` makes through the `Backend` interface: either the
engine-only entry point or the callback-capable one carrying an executor. -/
inductive BackendRequest where
  | agentRun (name : String) (providerHandle : Nat) (tools : List ToolSchema)
      (messages : List Message) (options : AgentOptions)
  | agentRunWithToolExecutor (name : String) (providerHandle : Nat)
      (tools : List ToolSchema) (messages : List Message)
      (options : AgentOptions)
      (executor : ToolCallEnvelope → Except String String × List (String × Json))

/-- Whether a backend request uses the callback-capable entry point
(Mode B) rather than the engine-only one (Mode A). -/
def BackendRequest.isModeB : BackendRequest → Bool
  | .agentRunWithToolExecutor _ _ _ _ _ _ => true
  | .agentRun _ _ _ _ _ => false

/-- The tool schemas carried by a backend request. -/
def BackendRequest.schemas : BackendRequest → List ToolSchema
  | .agentRun _ _ ts _ _ => ts
  | .agentRunWithToolExecutor _ _ ts _ _ _ => ts

/-- Agent facade (agent.ts `Agent`): name, wrapped provider, options. -/
structure Agent where
  name : String
  provider : Provider
  options : AgentOptions

/-- agent.ts `Agent.run`: computes the schemas from `options.tools` once,
checks whether any tool has an `execute` function, evaluates
`provider.getHandle()` (which throws on a destroyed provider before any
backend entry point is invoked), and issues either
`agentRunWithToolExecutor` with the executor over `executorMap`, or
`agentRun`. The returned value is the single boundary request made. -/
def Agent.run (a : Agent) (messages : List Message) :
    Except String BackendRequest :=
  let tools := a.options.tools.getD []
  let toolSchemas := tools.map ToolDef.toSchema
  let hasExecuteFns := tools.any fun t => t.execute.isSome
  if hasExecuteFns then
    match a.provider.getHandle with
    | .error e => .error e
    | .ok h =>
      .ok (BackendRequest.agentRunWithToolExecutor a.name h toolSchemas
        messages a.options (toolExecutor (buildExecutorMap tools)))
  else
    match a.provider.getHandle with
    | .error e => .error e
    | .ok h =>
      .ok (BackendRequest.agentRun a.name h toolSchemas messages a.options)

/-! ## Engine step loop (spec-modelled) -/

/-- One engine decision in a run: call a tool or produce the final answer. -/
inductive EngineAction where
  | toolCall (tool : String) (args : Json)
  | finalAnswer (text : String)

/-- Modelled from the spec: the agent step loop of the native engine lives in
the Rust crates (crates/gauss-core), which are not under the TypeScript
sources; per the spec, each engine step that issues a tool call invokes
the executor and, once the result envelope returns, the engine resumes;
a final answer ends the run, and the step count counts every engine step.
A failing executor fails the entire run immediately with that error and
no further steps execute. The accumulator records executor-reported host
invocations; token usage of the external engine is modelled as zero. -/
def engineRun
    (executor : ToolCallEnvelope → Except String String × List (String × Json)) :
    List EngineAction → Nat → List (String × Json) →
    Except String AgentResult × List (String × Json)
  | [], _, invoked => (.error "engine produced no final answer", invoked)
  | .toolCall t args :: rest, steps, invoked =>
    match executor ⟨t, args⟩ with
    | (.error e, inv) => (.error e, invoked ++ inv)
    | (.ok _res, inv) => engineRun executor rest (steps + 1) (invoked ++ inv)
  | .finalAnswer text :: _, steps, invoked =>
    (.ok { text := text, steps := steps + 1,
           usage := { inputTokens := 0, outputTokens := 0 },
           structuredOutput := none }, invoked)

/-! ## NAPI (Direct) marshalling (backend.ts `createNapiBackend`) -/

/-- A JavaScript property slot as seen by the native module: the property
may be absent from the object, hold the literal `null`, or hold a value. -/
inductive JsVal (α : Type) where
  | absent
  | null
  | val (a : α)
deriving Repr, DecidableEq

/-- The `x ?? null` idiom used throughout `createNapiBackend`: an absent
host optional becomes the literal `null`, a present one passes through. -/
def orNull {α : Type} : Option α → JsVal α
  | none => JsVal.null
  | some a => JsVal.val a

/-- Provider options object handed to `napi.createProvider`. -/
structure NapiProviderOptions where
  apiKey : String
  baseUrl : JsVal String
  timeoutMs : JsVal Nat
  maxRetries : JsVal Nat
  organization : JsVal String
deriving Repr

/-- Tool schema object handed to the napi agent entry points. -/
structure NapiToolSchema where
  name : String
  description : String
  parameters : JsVal Json
deriving Repr

/-- Agent options object handed to the napi agent entry points. -/
structure NapiAgentOptions where
  instructions : JsVal String
  maxSteps : JsVal Nat
  temperature : JsVal Int
  topP : JsVal Int
  maxTokens : JsVal Nat
  seed : JsVal Nat
  stopOnTool : JsVal String
  outputSchema : JsVal Json
deriving Repr

/-- Calls into the napi native module, with the exact structured (not
reserialized) arguments the adapter passes. -/
inductive NapiCall where
  | createProvider (type model : String) (options : NapiProviderOptions)
  | destroyProvider (handle : Nat)
  | generate (handle : Nat) (messages : List Message)
      (temperature : JsVal Int) (maxTokens : JsVal Nat)
  | agentRun (name : String) (providerHandle : Nat)
      (tools : List NapiToolSchema) (messages : List Message)
      (options : NapiAgentOptions)
  | agentRunWithToolExecutor (name : String) (providerHandle : Nat)
      (tools : List NapiToolSchema) (messages : List Message)
      (options : NapiAgentOptions)
      (executor : ToolCallEnvelope → Except String String × List (String × Json))

/-- backend.ts `createNapiBackend`: the provider options object built for
`napi.createProvider` (each absent optional mapped by `?? null`). -/
def napiProviderOptions (o : ProviderOptions) : NapiProviderOptions :=
  { apiKey := o.apiKey
    baseUrl := orNull o.baseUrl
    timeoutMs := orNull o.timeoutMs
    maxRetries := orNull o.maxRetries
    organization := orNull o.organization }

/-- backend.ts `createNapiBackend`: tool schema mapping used by `agentRun`
and `agentRunWithToolExecutor` (`parameters ?? null`). -/
def napiToolSchema (t : ToolSchema) : NapiToolSchema :=
  { name := t.name, description := t.description,
    parameters := orNull t.parameters }

/-- backend.ts `createNapiBackend`: agent options object (every optional
field mapped by `?? null`). -/
def napiAgentOptions (o : AgentOptions) : NapiAgentOptions :=
  { instructions := orNull o.instructions
    maxSteps := orNull o.maxSteps
    temperature := orNull o.temperature
    topP := orNull o.topP
    maxTokens := orNull o.maxTokens
    seed := orNull o.seed
    stopOnTool := orNull o.stopOnTool
    outputSchema := orNull o.outputSchema }

/-- backend.ts `createNapiBackend.createProvider`. -/
def napiBackend.createProvider (type model : String) (o : ProviderOptions) :
    NapiCall :=
  NapiCall.createProvider type model (napiProviderOptions o)

/-- backend.ts `createNapiBackend.generate`: messages are re-mapped
structurally (`role`, `content`), temperature and maxTokens by `?? null`. -/
def napiBackend.generate (handle : Nat) (messages : List Message)
    (temperature : Option Int) (maxTokens : Option Nat) : NapiCall :=
  NapiCall.generate handle
    (messages.map fun m => { role := m.role, content := m.content })
    (orNull temperature) (orNull maxTokens)

/-- backend.ts `createNapiBackend.agentRun`. -/
def napiBackend.agentRun (name : String) (providerHandle : Nat)
    (tools : List ToolSchema) (messages : List Message)
    (options : AgentOptions) : NapiCall :=
  NapiCall.agentRun name providerHandle (tools.map napiToolSchema)
    (messages.map fun m => { role := m.role, content := m.content })
    (napiAgentOptions options)

/-- backend.ts `createNapiBackend.agentRunWithToolExecutor`: same
marshalling as `agentRun` plus the executor passed through unchanged. -/
def napiBackend.agentRunWithToolExecutor (name : String)
    (providerHandle : Nat) (tools : List ToolSchema)
    (messages : List Message) (options : AgentOptions)
    (executor : ToolCallEnvelope → Except String String × List (String × Json)) :
    NapiCall :=
  NapiCall.agentRunWithToolExecutor name providerHandle
    (tools.map napiToolSchema)
    (messages.map fun m => { role := m.role, content := m.content })
    (napiAgentOptions options) executor

/-! ## WASM (Envelope) marshalling (backend.ts `createWasmBackend`) -/

/-- Calls into the wasm native module: message lists and options cross the
boundary as JSON text. -/
inductive WasmCall where
  | createProvider (type model apiKey : String) (baseUrl : Option String)
  | destroyProvider (handle : Nat)
  | generate (handle : Nat) (messagesJson : String)
      (temperature : Option Int) (maxTokens : Option Nat)
  | agentRun (name : String) (providerHandle : Nat)
      (messagesJson : String) (optionsJson : String)
deriving Repr, DecidableEq

/-- JSON form of one message, as `JSON.stringify` renders it. -/
def Message.toJson (m : Message) : Json :=
  Json.obj [("role", Json.str m.role.text), ("content", Json.str m.content)]

/-- Serialization of a message list (`JSON.stringify(messages)`). -/
def stringifyMessages (messages : List Message) : String :=
  Json.stringify (Json.arr (messages.map Message.toJson))

/-- One optional property of the object literal handed to
`JSON.stringify`: a present host optional contributes one property, an
absent one is dropped from the serialized text (stringify omits
properties whose value is `undefined`). -/
def presentField {α : Type} (key : String) (toJ : α → Json) :
    Option α → List (String × Json)
  | none => []
  | some a => [(key, toJ a)]

/-- backend.ts `createWasmBackend.agentRun`: the properties that appear in
the serialized options object, in the order of the object literal
(`instructions, maxSteps, temperature, topP, maxTokens, stopOnTool,
outputSchema`; `seed` and `tools` are not part of the literal). -/
def wasmAgentRunOptionFields (o : AgentOptions) : List (String × Json) :=
  presentField "instructions" Json.str o.instructions ++
  presentField "maxSteps" (fun n => Json.num (Int.ofNat n)) o.maxSteps ++
  presentField "temperature" Json.num o.temperature ++
  presentField "topP" Json.num o.topP ++
  presentField "maxTokens" (fun n => Json.num (Int.ofNat n)) o.maxTokens ++
  presentField "stopOnTool" Json.str o.stopOnTool ++
  presentField "outputSchema" (fun j => j) o.outputSchema

/-- backend.ts `createWasmBackend.createProvider`: only `apiKey` and
`baseUrl ?? undefined` are forwarded. -/
def wasmBackend.createProvider (type model : String) (o : ProviderOptions) :
    WasmCall :=
  WasmCall.createProvider type model o.apiKey o.baseUrl

/-- backend.ts `createWasmBackend.generate`: messages serialized to JSON
text, `temperature ?? undefined`, `maxTokens ?? undefined`. -/
def wasmBackend.generate (handle : Nat) (messages : List Message)
    (temperature : Option Int) (maxTokens : Option Nat) : WasmCall :=
  WasmCall.generate handle (stringifyMessages messages) temperature maxTokens

/-- backend.ts `createWasmBackend.agentRun`: the `_tools` parameter is
ignored; messages and the options literal are serialized to JSON text. -/
def wasmBackend.agentRun (name : String) (providerHandle : Nat)
    (_tools : List ToolSchema) (messages : List Message)
    (options : AgentOptions) : WasmCall :=
  WasmCall.agentRun name providerHandle (stringifyMessages messages)
    (Json.stringify (Json.obj (wasmAgentRunOptionFields options)))

/-- backend.ts `createWasmBackend.agentRunWithToolExecutor`: the executor
is ignored and the call falls through to `this.agentRun`. -/
def wasmBackend.agentRunWithToolExecutor (name : String)
    (providerHandle : Nat) (tools : List ToolSchema)
    (messages : List Message) (options : AgentOptions)
    (_executor : ToolCallEnvelope → Except String String × List (String × Json)) :
    WasmCall :=
  wasmBackend.agentRun name providerHandle tools messages options

/-- Interpretation of an agent-facade boundary request by the wasm
backend. -/
def wasmInterpret : BackendRequest → WasmCall
  | .agentRun n h ts ms o => wasmBackend.agentRun n h ts ms o
  | .agentRunWithToolExecutor n h ts ms o ex =>
    wasmBackend.agentRunWithToolExecutor n h ts ms o ex

/-- Interpretation of an agent-facade boundary request by the napi
backend. -/
def napiInterpret : BackendRequest → NapiCall
  | .agentRun n h ts ms o => napiBackend.agentRun n h ts ms o
  | .agentRunWithToolExecutor n h ts ms o ex =>
    napiBackend.agentRunWithToolExecutor n h ts ms o ex

/-! ## Backend selection (backend.ts `detectBackend`, `getBackend`,
`setBackend`) -/

/-- Whether each candidate native module can be loaded by `require`. -/
structure ModuleEnv where
  napiAvailable : Bool
  wasmAvailable : Bool
deriving Repr, DecidableEq

/-- The active backend: one of the two native modules, or a test double
installed through `setBackend`. -/
inductive BackendChoice where
  | napi
  | wasm
  | custom (id : Nat)
deriving Repr, DecidableEq

/-- Package name of the napi candidate. -/
def napiPackage : String := "@giulio-leone/gauss-core-napi"

/-- Package name of the wasm candidate. -/
def wasmPackage : String := "@giulio-leone/gauss-core-wasm"

/-- backend.ts `detectBackend`: the error message thrown when no candidate
loads. -/
def noBackendMessage : String :=
  "No Gauss backend found. Install @giulio-leone/gauss-core-napi (Node.js) or @giulio-leone/gauss-core-wasm (Browser/Edge)."

/-- backend.ts `detectBackend`: try the napi module first, then the wasm
module, throwing `noBackendMessage` when both fail. The first component
lists the candidates attempted, in order. -/
def detectBackendTrace (env : ModuleEnv) :
    List String × Except String BackendChoice :=
  if env.napiAvailable then ([napiPackage], .ok BackendChoice.napi)
  else if env.wasmAvailable then
    ([napiPackage, wasmPackage], .ok BackendChoice.wasm)
  else ([napiPackage, wasmPackage], .error noBackendMessage)

/-- backend.ts `detectBackend`, result only. -/
def detectBackend (env : ModuleEnv) : Except String BackendChoice :=
  (detectBackendTrace env).2

/-- backend.ts `getBackend` as a transition on the memo cell `_backend`:
result, new memo state, and whether detection ran on this call. -/
def getBackendStep (env : ModuleEnv) (st : Option BackendChoice) :
    Except String BackendChoice × Option BackendChoice × Bool :=
  match st with
  | some b => (.ok b, some b, false)
  | none =>
    match detectBackend env with
    | .ok b => (.ok b, some b, true)
    | .error e => (.error e, none, true)

/-- Host-side operations touching the selector state. -/
inductive HostOp where
  | getB
  | setB (b : BackendChoice)

/-- Run a sequence of selector operations from a memo state, collecting
each `getBackend` result, the final memo state, and how many times
detection ran (`setBackend` assigns the memo cell directly). -/
def runOps (env : ModuleEnv) :
    List HostOp → Option BackendChoice →
    List (Except String BackendChoice) × Option BackendChoice × Nat
  | [], st => ([], st, 0)
  | HostOp.getB :: rest, st =>
    let step := getBackendStep env st
    let tail := runOps env rest step.2.1
    (step.1 :: tail.1, tail.2.1, (if step.2.2 then 1 else 0) + tail.2.2)
  | HostOp.setB b :: rest, _ =>
    let tail := runOps env rest (some b)
    (tail.1, tail.2.1, tail.2.2)

/-! ## Concrete fixtures used by witnesses -/

/-- Agent options with every optional field absent. -/
def optsEmpty : AgentOptions :=
  { instructions := none, maxSteps := none, temperature := none, topP := none,
    maxTokens := none, seed := none, stopOnTool := none, outputSchema := none,
    tools := none }

/-- A tool with a host `execute` implementation that always returns `"42"`. -/
def calcTool : ToolDef :=
  { name := "calc", description := "evaluates an expression",
    parameters := none, execute := some fun _ => Json.str "42" }

/-- A tool without a host `execute` implementation. -/
def noExecTool : ToolDef :=
  { name := "B", description := "engine-resolved tool",
    parameters := none, execute := none }

/-- Agent options whose only present optional field is `seed`. -/
def seedOpts : AgentOptions :=
  { instructions := none, maxSteps := none, temperature := none, topP := none,
    maxTokens := none, seed := some 7, stopOnTool := none, outputSchema := none,
    tools := none }

/-- Agent options whose tool table mixes a tool with a host implementation
and one without. -/
def mixedOpts : AgentOptions :=
  { instructions := none, maxSteps := none, temperature := none, topP := none,
    maxTokens := none, seed := none, stopOnTool := none, outputSchema := none,
    tools := some [calcTool, noExecTool] }

/-- An agent over a live provider whose tool table is `mixedOpts`. -/
def demoAgent : Agent :=
  { name := "demo", provider := { handle := 2, destroyed := false },
    options := mixedOpts }

/-- The relation the Direct marshaller actually establishes between a host
optional and the property handed to the napi module: the property is never
omitted; it is the literal `null` exactly when the host optional is
absent, and carries exactly the host value otherwise. -/
def nullSentinel {α : Type} (src : Option α) (dst : JsVal α) : Prop :=
  dst ≠ JsVal.absent ∧ (dst = JsVal.null ↔ src = none) ∧
  ∀ a, dst = JsVal.val a ↔ src = some a

/-! ## Helper lemmas -/

/-- The `?? null` mapping satisfies `nullSentinel`. -/
theorem orNull_nullSentinel {α : Type} (src : Option α) :
    nullSentinel src (orNull src) := by
  cases src <;> simp [nullSentinel, orNull]

/-- Key membership in the serialized form of one optional property. -/
theorem mem_keys_presentField {α : Type} (k key : String) (toJ : α → Json)
    (src : Option α) :
    k ∈ (presentField key toJ src).map Prod.fst ↔ (k = key ∧ src ≠ none) := by
  cases src <;> simp [presentField]

/-- Lookup after an overwrite-or-append update. -/
theorem assocGet_assocSet {α : Type} (m : List (String × α)) (k q : String)
    (v : α) :
    assocGet (assocSet m k v) q = if k = q then some v else assocGet m q := by
  induction m with
  | nil =>
    by_cases h : k = q <;> simp [assocSet, assocGet, h]
  | cons hd tl ih =>
    obtain ⟨k2, v2⟩ := hd
    by_cases h1 : k2 = k
    · subst h1
      by_cases h2 : k2 = q <;> simp [assocSet, assocGet, h2]
    · by_cases h2 : k2 = q
      · subst h2
        have : ¬k = k2 := fun he => h1 he.symm
        simp [assocSet, assocGet, h1, this, ih]
      · simp [assocSet, assocGet, h1, h2, ih]

/-- Folding the executor-map loop over tools none of which both carry the
name `t` and an `execute` member leaves `t` unbound. -/
theorem assocGet_foldl_executorMapStep (tools : List ToolDef) (t : String)
    (m : List (String × (Json → Json)))
    (h : ∀ td ∈ tools, td.name = t → td.execute = none)
    (hm : assocGet m t = none) :
    assocGet (tools.foldl executorMapStep m) t = none := by
  induction tools generalizing m with
  | nil => exact hm
  | cons td rest ih =>
    simp only [List.foldl_cons]
    refine ih _ (fun td2 h2 => h td2 (List.mem_cons_of_mem _ h2)) ?_
    cases hex : td.execute with
    | none => simpa [executorMapStep, hex] using hm
    | some fn =>
      have hne : ¬td.name = t := by
        intro he
        have := h td (List.mem_cons_self _ _) he
        rw [hex] at this
        exact Option.noConfusion this
      simp [executorMapStep, hex, assocGet_assocSet, hne, hm]

/-- A tool name with no host implementation anywhere in the table is
absent from `executorMap`. -/
theorem assocGet_buildExecutorMap_none (tools : List ToolDef) (t : String)
    (h : ∀ td ∈ tools, td.name = t → td.execute = none) :
    assocGet (buildExecutorMap tools) t = none :=
  assocGet_foldl_executorMapStep tools t [] h rfl

/-- Destroying an already-destroyed provider any number of times changes
nothing and issues no boundary call. -/
theorem destroyN_of_destroyed (n : Nat) (p : Provider)
    (h : p.destroyed = true) :
    Provider.destroyN n p = (p, []) := by
  induction n with
  | zero => rfl
  | succ m ih => simp [Provider.destroyN, Provider.destroy, h, ih]

/-! ## Claim theorems -/

/-- Claim C1: for every provider facade and any sequence of `destroy()`
calls, only the first releases the handle (the whole sequence issues
exactly one `destroyProvider` boundary call); every destroy on an
already-destroyed facade is a no-op returning normally; and any
`generate()` after any destroy fails with the use-after-destroy error
without reaching the backend. -/
theorem provider_destroy_idempotent (p : Provider) (n : Nat)
    (hp : p.destroyed = false) (hn : 1 ≤ n) :
    (Provider.destroyN n p).2 = [BackendCall.destroyProvider p.handle] ∧
    (∀ q : Provider, q.destroyed = true → q.destroy = (q, [])) ∧
    (∀ (messages : List Message) (temperature : Option Int)
        (maxTokens : Option Nat),
      Provider.generate (Provider.destroyN n p).1 messages temperature
          maxTokens =
        Except.error "Provider has been destroyed") := by
  obtain ⟨m, rfl⟩ : ∃ m, n = m + 1 := ⟨n - 1, by omega⟩
  have hd : p.destroy =
      ({ p with destroyed := true }, [BackendCall.destroyProvider p.handle]) := by
    simp [Provider.destroy, hp]
  have h2 : Provider.destroyN m { p with destroyed := true } =
      ({ p with destroyed := true }, []) :=
    destroyN_of_destroyed m _ rfl
  refine ⟨?_, ?_, ?_⟩
  · simp [Provider.destroyN, hd, h2]
  · intro q hq
    simp [Provider.destroy, hq]
  · intro messages temperature maxTokens
    simp [Provider.destroyN, hd, h2, Provider.generate]

/-- Witness for C1 at a concrete provider and three destroy calls. -/
theorem provider_destroy_idempotent_witness :
    (Provider.destroyN 3 { handle := 5, destroyed := false }).2 =
      [BackendCall.destroyProvider 5] ∧
    (∀ q : Provider, q.destroyed = true → q.destroy = (q, [])) ∧
    (∀ (messages : List Message) (temperature : Option Int)
        (maxTokens : Option Nat),
      Provider.generate
          (Provider.destroyN 3 { handle := 5, destroyed := false }).1 messages
          temperature maxTokens =
        Except.error "Provider has been destroyed") :=
  provider_destroy_idempotent { handle := 5, destroyed := false } 3 rfl
    (by omega)

/-- Claim C10: running an agent whose wrapped provider is destroyed fails
with the use-after-destroy error and issues no backend request (so neither
agent entry point nor any tool executor can run). -/
theorem agent_run_after_destroy (a : Agent) (messages : List Message)
    (h : a.provider.destroyed = true) :
    a.run messages = Except.error "Provider has been destroyed" := by
  have hh : a.provider.getHandle = .error "Provider has been destroyed" := by
    simp [Provider.getHandle, h]
  unfold Agent.run
  simp [hh]

/-- Witness for C10 at a concrete destroyed agent. -/
theorem agent_run_after_destroy_witness :
    Agent.run
        { name := "a", provider := { handle := 1, destroyed := true },
          options := optsEmpty } [] =
      Except.error "Provider has been destroyed" :=
  agent_run_after_destroy
    { name := "a", provider := { handle := 1, destroyed := true },
      options := optsEmpty } [] rfl

/-- Claim C2: on a live provider, `Agent.run` issues exactly one backend
request; that request uses the callback-capable entry point (Mode B) iff
at least one tool in the table carries a host `execute` implementation;
and in both modes the schemas passed are the map of the same tool table. -/
theorem agent_run_mode_selection (a : Agent) (messages : List Message)
    (h : a.provider.destroyed = false) :
    ∃ req, a.run messages = Except.ok req ∧
      (req.isModeB = true ↔
        ∃ t ∈ a.options.tools.getD [], t.execute.isSome = true) ∧
      req.schemas = (a.options.tools.getD []).map ToolDef.toSchema := by
  have hh : a.provider.getHandle = .ok a.provider.handle := by
    simp [Provider.getHandle, h]
  unfold Agent.run
  simp only [hh]
  by_cases hex :
      (a.options.tools.getD []).any (fun t => t.execute.isSome) = true
  · rw [if_pos hex]
    refine ⟨_, rfl, ?_, rfl⟩
    simp only [BackendRequest.isModeB, BackendRequest.schemas, true_iff]
    exact List.any_eq_true.mp hex
  · rw [if_neg hex]
    refine ⟨_, rfl, ?_, rfl⟩
    simp only [BackendRequest.isModeB, BackendRequest.schemas]
    constructor
    · intro hfalse
      exact absurd hfalse (by simp)
    · intro hEx
      exact absurd (List.any_eq_true.mpr hEx) hex

/-- Witness for C2 at a concrete agent whose table mixes a tool with an
implementation and one without. -/
theorem agent_run_mode_selection_witness :
    ∃ req, Agent.run demoAgent [] = Except.ok req ∧
      (req.isModeB = true ↔
        ∃ t ∈ demoAgent.options.tools.getD [], t.execute.isSome = true) ∧
      req.schemas = (demoAgent.options.tools.getD []).map ToolDef.toSchema :=
  agent_run_mode_selection demoAgent [] rfl

/-- Claim C3: in Mode B, a tool-call envelope naming a tool with no host
`execute` implementation anywhere in the table (absent, or present without
`execute`) makes the executor fail immediately with an error naming the
missing tool and zero host invocations; handed to the engine step loop
the whole run fails with that error at once, whatever actions would have
followed — nothing stalls and nothing is retried. -/
theorem unresolved_tool_fails_run (tools : List ToolDef) (t : String)
    (args : Json) (script : List EngineAction) (steps : Nat)
    (invoked : List (String × Json))
    (h : ∀ td ∈ tools, td.name = t → td.execute = none) :
    toolExecutor (buildExecutorMap tools) ⟨t, args⟩ =
      (Except.error ("No execute function for tool: " ++ t), []) ∧
    engineRun (toolExecutor (buildExecutorMap tools))
        (EngineAction.toolCall t args :: script) steps invoked =
      (Except.error ("No execute function for tool: " ++ t), invoked) := by
  have hget : assocGet (buildExecutorMap tools) t = none :=
    assocGet_buildExecutorMap_none tools t h
  have hexec : toolExecutor (buildExecutorMap tools) ⟨t, args⟩ =
      (Except.error ("No execute function for tool: " ++ t), []) := by
    simp [toolExecutor, hget]
  refine ⟨hexec, ?_⟩
  simp [engineRun, hexec]

/-- Witness for C3: table with tools `calc` (has execute) and `B` (no
execute); the engine requests `B`. -/
theorem unresolved_tool_fails_run_witness :
    toolExecutor (buildExecutorMap [calcTool, noExecTool]) ⟨"B", Json.null⟩ =
      (Except.error ("No execute function for tool: " ++ "B"), []) ∧
    engineRun (toolExecutor (buildExecutorMap [calcTool, noExecTool]))
        (EngineAction.toolCall "B" Json.null ::
          [EngineAction.finalAnswer "unreached"]) 0 [] =
      (Except.error ("No execute function for tool: " ++ "B"), []) :=
  unresolved_tool_fails_run [calcTool, noExecTool] "B" Json.null
    [EngineAction.finalAnswer "unreached"] 0 []
    (by
      intro td htd hname
      rcases List.mem_cons.mp htd with rfl | htd2
      · exact absurd hname (by simp [calcTool])
      · rcases List.mem_cons.mp htd2 with rfl | htd3
        · rfl
        · exact absurd htd3 (List.not_mem_nil _))

/-- Claim C9: in Mode B, a tool-call envelope naming a tool whose host
implementation is bound in `executorMap` makes the bridge invoke that
implementation exactly once with exactly the parsed arguments and return
the JSON serialization of its result; in the spec scenario (one tool whose
execute always returns `"42"`, engine requests it once then answers), the
run ends with `steps = 2`, the final answer as text, and exactly one host
invocation carrying the parsed call arguments. -/
theorem tool_bridge_hit (tools : List ToolDef) (t : String)
    (args a0 : Json) (fn : Json → Json) (ans : String)
    (hfn : assocGet (buildExecutorMap tools) t = some fn) :
    toolExecutor (buildExecutorMap tools) ⟨t, args⟩ =
      (Except.ok (Json.stringify (fn args)), [(t, args)]) ∧
    engineRun (toolExecutor (buildExecutorMap [calcTool]))
        [EngineAction.toolCall "calc" a0, EngineAction.finalAnswer ans] 0 [] =
      (Except.ok
        { text := ans, steps := 2,
          usage := { inputTokens := 0, outputTokens := 0 },
          structuredOutput := none }, [("calc", a0)]) := by
  constructor
  · simp [toolExecutor, hfn]
  · simp [engineRun, toolExecutor, buildExecutorMap, executorMapStep,
      calcTool, assocSet, assocGet]

/-- Witness for C9 at the concrete one-tool table. -/
theorem tool_bridge_hit_witness :
    toolExecutor (buildExecutorMap [calcTool]) ⟨"calc", Json.num 3⟩ =
      (Except.ok (Json.stringify ((fun _ => Json.str "42") (Json.num 3))),
        [("calc", Json.num 3)]) ∧
    engineRun (toolExecutor (buildExecutorMap [calcTool]))
        [EngineAction.toolCall "calc" (Json.num 3),
          EngineAction.finalAnswer "done"] 0 [] =
      (Except.ok
        { text := "done", steps := 2,
          usage := { inputTokens := 0, outputTokens := 0 },
          structuredOutput := none }, [("calc", Json.num 3)]) :=
  tool_bridge_hit [calcTool] "calc" (Json.num 3) (Json.num 3)
    (fun _ => Json.str "42") "done" rfl

/-- Claim C4: under the wasm (Envelope) backend, `agentRunWithToolExecutor`
is the same call as `agentRun` on the same arguments; its result does not
depend on the supplied executor (so no host implementation is ever
invoked, the `WasmCall` carrying no executor at all); and every `Agent.run`
on a live provider — in particular one whose tools carry execute
implementations, hence Mode B — interprets under the wasm backend to the
Mode A `agentRun` call and completes without error. -/
theorem wasm_mode_b_degrades (a : Agent) (messages : List Message)
    (name : String) (handle : Nat) (tools : List ToolSchema)
    (ms : List Message) (o : AgentOptions)
    (ex1 ex2 : ToolCallEnvelope → Except String String × List (String × Json))
    (hp : a.provider.destroyed = false) :
    wasmBackend.agentRunWithToolExecutor name handle tools ms o ex1 =
      wasmBackend.agentRun name handle tools ms o ∧
    wasmBackend.agentRunWithToolExecutor name handle tools ms o ex1 =
      wasmBackend.agentRunWithToolExecutor name handle tools ms o ex2 ∧
    ∃ req, a.run messages = Except.ok req ∧
      wasmInterpret req =
        wasmBackend.agentRun a.name a.provider.handle
          ((a.options.tools.getD []).map ToolDef.toSchema) messages
          a.options := by
  refine ⟨rfl, rfl, ?_⟩
  have hh : a.provider.getHandle = .ok a.provider.handle := by
    simp [Provider.getHandle, hp]
  unfold Agent.run
  simp only [hh]
  by_cases hex :
      (a.options.tools.getD []).any (fun t => t.execute.isSome) = true
  · rw [if_pos hex]
    exact ⟨_, rfl, rfl⟩
  · rw [if_neg hex]
    exact ⟨_, rfl, rfl⟩

/-- Witness for C4 at a concrete Mode B agent (its table carries an
execute implementation) and concrete executors. -/
theorem wasm_mode_b_degrades_witness :
    wasmBackend.agentRunWithToolExecutor "demo" 2 [] [] optsEmpty
        (toolExecutor []) =
      wasmBackend.agentRun "demo" 2 [] [] optsEmpty ∧
    wasmBackend.agentRunWithToolExecutor "demo" 2 [] [] optsEmpty
        (toolExecutor []) =
      wasmBackend.agentRunWithToolExecutor "demo" 2 [] [] optsEmpty
        (toolExecutor (buildExecutorMap [calcTool])) ∧
    ∃ req, Agent.run demoAgent [] = Except.ok req ∧
      wasmInterpret req =
        wasmBackend.agentRun demoAgent.name demoAgent.provider.handle
          ((demoAgent.options.tools.getD []).map ToolDef.toSchema) []
          demoAgent.options :=
  wasm_mode_b_degrades demoAgent [] "demo" 2 [] [] optsEmpty
    (toolExecutor []) (toolExecutor (buildExecutorMap [calcTool])) rfl

set_option maxRecDepth 100000 in
/-- Claim C5: backend detection attempts the napi module first and the
wasm module second, never skipping the first viable candidate (whatever
the wasm availability, a loadable napi module is chosen with only one
attempt); and when every candidate fails, it throws the configuration
error whose message names both attempted packages. -/
theorem backend_detection_order (env : ModuleEnv) :
    (env.napiAvailable = true →
      detectBackendTrace env = ([napiPackage], Except.ok BackendChoice.napi)) ∧
    (env.napiAvailable = false → env.wasmAvailable = true →
      detectBackendTrace env =
        ([napiPackage, wasmPackage], Except.ok BackendChoice.wasm)) ∧
    (env.napiAvailable = false → env.wasmAvailable = false →
      detectBackendTrace env =
        ([napiPackage, wasmPackage], Except.error noBackendMessage) ∧
      napiPackage.data <:+: noBackendMessage.data ∧
      wasmPackage.data <:+: noBackendMessage.data) := by
  refine ⟨?_, ?_, ?_⟩
  · intro h1
    simp [detectBackendTrace, h1]
  · intro h1 h2
    simp [detectBackendTrace, h1, h2]
  · intro h1 h2
    refine ⟨by simp [detectBackendTrace, h1, h2], ?_, ?_⟩ <;> decide

/-- Witness for C5 in the environment where both candidates fail. -/
theorem backend_detection_order_witness :
    detectBackendTrace { napiAvailable := false, wasmAvailable := false } =
      ([napiPackage, wasmPackage], Except.error noBackendMessage) ∧
    napiPackage.data <:+: noBackendMessage.data ∧
    wasmPackage.data <:+: noBackendMessage.data :=
  (backend_detection_order
      { napiAvailable := false, wasmAvailable := false }).2.2 rfl rfl

/-- Repeated `getBackend` calls against an already-set memo cell return
the memoized choice unchanged and never run detection. -/
theorem runOps_getB_memoized (env : ModuleEnv) (b : BackendChoice) (m : Nat) :
    runOps env (List.replicate m HostOp.getB) (some b) =
      (List.replicate m (Except.ok b), some b, 0) := by
  induction m with
  | zero => rfl
  | succ k ih => simp [List.replicate_succ, runOps, getBackendStep, ih]

/-- Claim C6: when detection succeeds, a process making any number of
`getBackend` calls runs detection exactly once — on the first call — and
every call returns the same memoized choice; a single `getBackend` against
an already-set memo returns it without detection and without changing the
memo; and `setBackend` before any `getBackend` installs an override that
every later `getBackend` returns with detection never running. -/
theorem backend_memoization (env : ModuleEnv) (b : BackendChoice) (n : Nat)
    (hdet : detectBackend env = Except.ok b) :
    runOps env (List.replicate (n + 1) HostOp.getB) none =
      (List.replicate (n + 1) (Except.ok b), some b, 1) ∧
    getBackendStep env (some b) = (Except.ok b, some b, false) ∧
    (∀ (c : BackendChoice) (m : Nat),
      runOps env (HostOp.setB c :: List.replicate m HostOp.getB) none =
        (List.replicate m (Except.ok c), some c, 0)) := by
  refine ⟨?_, rfl, ?_⟩
  · simp [List.replicate_succ, runOps, getBackendStep, hdet,
      runOps_getB_memoized]
  · intro c m
    simp [runOps, runOps_getB_memoized]

/-- Witness for C6 in an environment where the napi module loads. -/
theorem backend_memoization_witness :
    runOps { napiAvailable := true, wasmAvailable := true }
        (List.replicate 3 HostOp.getB) none =
      (List.replicate 3 (Except.ok BackendChoice.napi),
        some BackendChoice.napi, 1) ∧
    getBackendStep { napiAvailable := true, wasmAvailable := true }
        (some BackendChoice.napi) =
      (Except.ok BackendChoice.napi, some BackendChoice.napi, false) ∧
    (∀ (c : BackendChoice) (m : Nat),
      runOps { napiAvailable := true, wasmAvailable := true }
          (HostOp.setB c :: List.replicate m HostOp.getB) none =
        (List.replicate m (Except.ok c), some c, 0)) :=
  backend_memoization { napiAvailable := true, wasmAvailable := true }
    BackendChoice.napi 2 rfl

/-- Counterexample to claim C7: with every optional provider option
absent, `createNapiBackend.createProvider` hands the native module an
options object whose optional properties are all the literal `null` —
an explicit null sentinel, not omission (`JsVal.absent`). -/
theorem napi_omission_counterexample :
    napiBackend.createProvider "openai" "gpt-4o"
        { apiKey := "k", baseUrl := none, timeoutMs := none,
          maxRetries := none, organization := none } =
      NapiCall.createProvider "openai" "gpt-4o"
        { apiKey := "k", baseUrl := JsVal.null, timeoutMs := JsVal.null,
          maxRetries := JsVal.null, organization := JsVal.null } ∧
    (JsVal.null : JsVal String) ≠ JsVal.absent :=
  ⟨rfl, by simp⟩

/-- Claim C7 as amended: under the Direct (napi) strategy, host values
cross the boundary structurally (message lists are re-mapped field by
field, which is the identity — no textual reserialization), and every
absent optional field — of provider options, tool parameters, agent
options, and the temperature/maxTokens of generate — is mapped to an explicit
`null` property rather than omitted. -/
theorem napi_direct_marshalling (po : ProviderOptions) (o : AgentOptions)
    (t : ToolSchema) (handle : Nat) (messages : List Message)
    (temperature : Option Int) (maxTokens : Option Nat) :
    nullSentinel po.baseUrl (napiProviderOptions po).baseUrl ∧
    nullSentinel po.timeoutMs (napiProviderOptions po).timeoutMs ∧
    nullSentinel po.maxRetries (napiProviderOptions po).maxRetries ∧
    nullSentinel po.organization (napiProviderOptions po).organization ∧
    (napiProviderOptions po).apiKey = po.apiKey ∧
    nullSentinel t.parameters (napiToolSchema t).parameters ∧
    nullSentinel o.instructions (napiAgentOptions o).instructions ∧
    nullSentinel o.maxSteps (napiAgentOptions o).maxSteps ∧
    nullSentinel o.temperature (napiAgentOptions o).temperature ∧
    nullSentinel o.topP (napiAgentOptions o).topP ∧
    nullSentinel o.maxTokens (napiAgentOptions o).maxTokens ∧
    nullSentinel o.seed (napiAgentOptions o).seed ∧
    nullSentinel o.stopOnTool (napiAgentOptions o).stopOnTool ∧
    nullSentinel o.outputSchema (napiAgentOptions o).outputSchema ∧
    napiBackend.generate handle messages temperature maxTokens =
      NapiCall.generate handle messages (orNull temperature)
        (orNull maxTokens) ∧
    (messages.map fun m => ({ role := m.role, content := m.content } :
      Message)) = messages := by
  refine ⟨orNull_nullSentinel _, orNull_nullSentinel _, orNull_nullSentinel _,
    orNull_nullSentinel _, rfl, orNull_nullSentinel _, orNull_nullSentinel _,
    orNull_nullSentinel _, orNull_nullSentinel _, orNull_nullSentinel _,
    orNull_nullSentinel _, orNull_nullSentinel _, orNull_nullSentinel _,
    orNull_nullSentinel _, ?_, ?_⟩
  · simp [napiBackend.generate]
  · simp

/-- Counterexample to claim C8: under the wasm (Envelope) strategy, on
options whose only present field is `seed`, `agentRun` makes the very same
boundary call whether or not tool schemas are supplied; the serialized
options object carries no property at all (so `seed` is dropped and the
absent fields get no null sentinel); the options message is literally the
empty object. -/
theorem wasm_envelope_counterexample :
    wasmBackend.agentRun "a" 0
        [{ name := "lookup", description := "d", parameters := none }] []
        seedOpts =
      wasmBackend.agentRun "a" 0 [] [] seedOpts ∧
    (wasmAgentRunOptionFields seedOpts).map Prod.fst = [] ∧
    Json.stringify (Json.obj (wasmAgentRunOptionFields seedOpts)) =
      "\x7b\x7d" := by
  refine ⟨rfl, rfl, ?_⟩
  simp [seedOpts, wasmAgentRunOptionFields, presentField, Json.stringify,
    Json.stringifyFields]

/-- Claim C8 as amended: the `agentRun` of the wasm backend serializes the
messages and a fixed subset of the agent options into two separate JSON
strings; the tool schemas are never transmitted (the call is independent
of them), `seed` never appears among the serialized option properties,
each of the seven serialized properties appears exactly when the host
field is present — absent fields are omitted, not given a null sentinel. -/
theorem wasm_envelope_marshalling (name : String) (handle : Nat)
    (tools tools2 : List ToolSchema) (messages : List Message)
    (o : AgentOptions) :
    wasmBackend.agentRun name handle tools messages o =
      wasmBackend.agentRun name handle tools2 messages o ∧
    wasmBackend.agentRun name handle tools messages o =
      WasmCall.agentRun name handle (stringifyMessages messages)
        (Json.stringify (Json.obj (wasmAgentRunOptionFields o))) ∧
    "seed" ∉ (wasmAgentRunOptionFields o).map Prod.fst ∧
    (wasmAgentRunOptionFields o).map Prod.fst ⊆
      ["instructions", "maxSteps", "temperature", "topP", "maxTokens",
        "stopOnTool", "outputSchema"] ∧
    ("instructions" ∈ (wasmAgentRunOptionFields o).map Prod.fst ↔
      o.instructions ≠ none) ∧
    ("maxSteps" ∈ (wasmAgentRunOptionFields o).map Prod.fst ↔
      o.maxSteps ≠ none) ∧
    ("temperature" ∈ (wasmAgentRunOptionFields o).map Prod.fst ↔
      o.temperature ≠ none) ∧
    ("topP" ∈ (wasmAgentRunOptionFields o).map Prod.fst ↔
      o.topP ≠ none) ∧
    ("maxTokens" ∈ (wasmAgentRunOptionFields o).map Prod.fst ↔
      o.maxTokens ≠ none) ∧
    ("stopOnTool" ∈ (wasmAgentRunOptionFields o).map Prod.fst ↔
      o.stopOnTool ≠ none) ∧
    ("outputSchema" ∈ (wasmAgentRunOptionFields o).map Prod.fst ↔
      o.outputSchema ≠ none) := by
  refine ⟨rfl, rfl, ?_, ?_, ?_, ?_, ?_, ?_, ?_, ?_, ?_⟩
  · simp only [wasmAgentRunOptionFields, List.map_append, List.mem_append,
      mem_keys_presentField]
    simp
  · intro k hk
    simp only [wasmAgentRunOptionFields, List.map_append, List.mem_append,
      mem_keys_presentField] at hk
    rcases hk with
      ((((((⟨rfl, -⟩ | ⟨rfl, -⟩) | ⟨rfl, -⟩) | ⟨rfl, -⟩) | ⟨rfl, -⟩) |
        ⟨rfl, -⟩) | ⟨rfl, -⟩) <;> simp
  all_goals
    simp only [wasmAgentRunOptionFields, List.map_append, List.mem_append,
      mem_keys_presentField]
    simp

/-- Witness for the amended C8 at concrete arguments (the subset conjunct
contains an implication). -/
theorem wasm_envelope_marshalling_witness :
    wasmBackend.agentRun "a" 0 [] [] seedOpts =
      wasmBackend.agentRun "a" 0 [] [] seedOpts ∧
    wasmBackend.agentRun "a" 0 [] [] seedOpts =
      WasmCall.agentRun "a" 0 (stringifyMessages [])
        (Json.stringify (Json.obj (wasmAgentRunOptionFields seedOpts))) ∧
    "seed" ∉ (wasmAgentRunOptionFields seedOpts).map Prod.fst ∧
    (wasmAgentRunOptionFields seedOpts).map Prod.fst ⊆
      ["instructions", "maxSteps", "temperature", "topP", "maxTokens",
        "stopOnTool", "outputSchema"] ∧
    ("instructions" ∈ (wasmAgentRunOptionFields seedOpts).map Prod.fst ↔
      seedOpts.instructions ≠ none) ∧
    ("maxSteps" ∈ (wasmAgentRunOptionFields seedOpts).map Prod.fst ↔
      seedOpts.maxSteps ≠ none) ∧
    ("temperature" ∈ (wasmAgentRunOptionFields seedOpts).map Prod.fst ↔
      seedOpts.temperature ≠ none) ∧
    ("topP" ∈ (wasmAgentRunOptionFields seedOpts).map Prod.fst ↔
      seedOpts.topP ≠ none) ∧
    ("maxTokens" ∈ (wasmAgentRunOptionFields seedOpts).map Prod.fst ↔
      seedOpts.maxTokens ≠ none) ∧
    ("stopOnTool" ∈ (wasmAgentRunOptionFields seedOpts).map Prod.fst ↔
      seedOpts.stopOnTool ≠ none) ∧
    ("outputSchema" ∈ (wasmAgentRunOptionFields seedOpts).map Prod.fst ↔
      seedOpts.outputSchema ≠ none) :=
  wasm_envelope_marshalling "a" 0 [] [] [] seedOpts

end Gauss
